import Mathlib

/-!
Shallow embedding of src/src/notion_mcp/server.py.

Remote I/O (the Notion HTTP API, RSS feeds, the filesystem) is passed in
explicitly: each tool is a function of the data the corresponding Python
call would have produced (the decoded query response, the feeds file
content, the per-URL fetch outcome).  Python exceptions are modelled with
`Except String`, the error string standing for `str(e)`.
-/

/-- Model of a decoded Python/JSON value as it flows through server.py:
None, bool, str, list, dict (with string keys, insertion ordered). -/
inductive PyVal where
  | null : PyVal
  | bool (b : Bool) : PyVal
  | str (s : String) : PyVal
  | list (xs : List PyVal) : PyVal
  | dict (kvs : List (String × PyVal)) : PyVal

namespace PyVal

/-- Python truthiness of a value, as used by `if x:` and `x and y`. -/
def truthy : PyVal → Bool
  | .null => false
  | .bool b => b
  | .str s => !s.isEmpty
  | .list xs => !xs.isEmpty
  | .dict kvs => !kvs.isEmpty

/-- Model of `x[k]` for a string key `k`: dict lookup (KeyError when the key
is missing), TypeError on any non-dict value. -/
def getStr : PyVal → String → Except String PyVal
  | .dict kvs, k =>
      match kvs.lookup k with
      | some v => .ok v
      | none => .error ("KeyError: " ++ k)
  | .str _, _ => .error ("TypeError: string indices must be integers")
  | .list _, _ => .error ("TypeError: list indices must be integers or slices, not str")
  | _, _ => .error ("TypeError: object is not subscriptable")

/-- Model of `x[i]` for an integer index `i` on a list. -/
def getIdx : PyVal → Nat → Except String PyVal
  | .list xs, i =>
      match xs.get? i with
      | some v => .ok v
      | none => .error ("IndexError: list index out of range")
  | _, _ => .error ("TypeError: value is not indexable by an integer")

/-- Model of `x.get(k)` (dict get, default None); AttributeError when `x` is
not a dict. -/
def dictGet : PyVal → String → Except String PyVal
  | .dict kvs, k => .ok ((kvs.lookup k).getD .null)
  | _, _ => .error ("AttributeError: object has no attribute get")

/-- Model of `x.get(k, d)` (dict get with an explicit default). -/
def dictGetD : PyVal → String → PyVal → Except String PyVal
  | .dict kvs, k, d => .ok ((kvs.lookup k).getD d)
  | _, _, _ => .error ("AttributeError: object has no attribute get")

/-- Model of iterating a value with `for x in v`: only the list case is
exercised by the claims; iteration of any other shape is an error. -/
def asList : PyVal → Except String (List PyVal)
  | .list xs => .ok xs
  | _ => .error ("TypeError: object is not iterable")

/-- Model of calling a str method such as `startswith` on a value:
AttributeError unless the value is a str. -/
def asStr : PyVal → Except String String
  | .str s => .ok s
  | _ => .error ("AttributeError: object has no attribute startswith")

end PyVal

/-- JSON escaping of one character, as performed by `json.dumps`. -/
def jsonEscapeChar (c : Char) : String :=
  if c.toNat = 34 then "\\\""
  else if c.toNat = 92 then "\\\\"
  else if c.toNat = 10 then "\\n"
  else String.singleton c

/-- JSON escaping of a string, as performed by `json.dumps`. -/
def jsonEscape (s : String) : String :=
  String.join (s.toList.map jsonEscapeChar)

mutual

/-- Model of `json.dumps(v, indent=2)`: a total serializer of `PyVal`.
The claims depend only on which value is serialized, not on the exact
whitespace, so the two-space indentation of the original is elided. -/
def jsonDumps : PyVal → String
  | .null => "null"
  | .bool true => "true"
  | .bool false => "false"
  | .str s => "\"" ++ jsonEscape s ++ "\""
  | .list xs => "[" ++ jsonDumpsList xs ++ "]"
  | .dict kvs => "\x7b" ++ jsonDumpsDict kvs ++ "\x7d"

/-- Serialize the elements of a JSON array, comma separated. -/
def jsonDumpsList : List PyVal → String
  | [] => ""
  | [x] => jsonDumps x
  | x :: y :: xs => jsonDumps x ++ ", " ++ jsonDumpsList (y :: xs)

/-- Serialize the members of a JSON object, comma separated. -/
def jsonDumpsDict : List (String × PyVal) → String
  | [] => ""
  | [(k, v)] => "\"" ++ jsonEscape k ++ "\": " ++ jsonDumps v
  | (k, v) :: m :: kvs =>
      "\"" ++ jsonEscape k ++ "\": " ++ jsonDumps v ++ ", " ++ jsonDumpsDict (m :: kvs)

end

/-!
Startup configuration (server.py lines 16-32): the .env file existence
check, then truthiness checks of the two required environment values.
`getenv` stands for `os.getenv` after `load_dotenv`; `none` is an unset
variable.
-/

/-- Resulting module-level configuration after a successful import of
server.py. -/
structure ServerConfig where
  apiKey : String
  databaseId : String
  baseUrl : String
  notionVersion : String
deriving DecidableEq

/-- Python falsiness of an optional environment value: unset, or set to the
empty string (`if not NOTION_API_KEY`). -/
def pyFalsyOpt (o : Option String) : Bool :=
  (o.getD "").isEmpty

/-- Model of importing server.py: raises FileNotFoundError when the .env
file is absent (lines 19-20), then ValueError naming the first missing
required key (lines 29-32); otherwise yields the module configuration with
the documented defaults (lines 24-27). -/
def serverStartup (envFileExists : Bool) (getenv : String → Option String) :
    Except String ServerConfig :=
  if !envFileExists then
    .error ("FileNotFoundError: No .env file found")
  else
    let apiKey := getenv ("NOTION_API_KEY")
    let dbId := getenv ("NOTION_DATABASE_ID")
    let baseUrl := (getenv ("NOTION_BASE_URL")).getD ("https://api.notion.com/v1")
    let ver := (getenv ("NOTION_VERSION")).getD ("2022-06-28")
    if pyFalsyOpt apiKey then
      .error ("ValueError: NOTION_API_KEY not found in .env file")
    else if pyFalsyOpt dbId then
      .error ("ValueError: NOTION_DATABASE_ID not found in .env file")
    else
      .ok ⟨apiKey.getD "", dbId.getD "", baseUrl, ver⟩

/-!
Task formatting (server.py lines 70-98 and 116-142; the two tools contain
the same loop body verbatim, with `show_today_tasks` adding a deadline
filter).  The loop variable `task` starts as the page object, is rebound to
the title string at line 74/120, and is then indexed again with string keys
at lines 89/93 (135/139) when the record is built.
-/

/-- One iteration of the formatting loop, applied to one page of the query
response.  Returns the built record together with the local `deadline`
value (which `show_today_tasks` consults for its filter). -/
def formatPage (page : PyVal) : Except String (PyVal × PyVal) := do
  let props ← page.getStr ("properties")
  -- task = ""
  let task0 : PyVal := .str ""
  -- if props.get("Task") and props["Task"].get("title"):
  let tGet ← props.dictGet ("Task")
  let task1 ←
    if tGet.truthy then do
      let tv ← props.getStr ("Task")
      let ttl ← tv.dictGet ("title")
      if ttl.truthy then do
        -- task = props["Task"]["title"][0]["text"]["content"] if props["Task"]["title"] else ""
        let tv2 ← props.getStr ("Task")
        let ttl2 ← tv2.getStr ("title")
        if ttl2.truthy then do
          let e0 ← ttl2.getIdx 0
          let tx ← e0.getStr ("text")
          tx.getStr ("content")
        else pure (PyVal.str "")
      else pure task0
    else pure task0
  -- completed = False; if props.get("Checkbox"): completed = props["Checkbox"]["checkbox"]
  let cGet ← props.dictGet ("Checkbox")
  let completed ←
    if cGet.truthy then do
      let cv ← props.getStr ("Checkbox")
      cv.getStr ("checkbox")
    else pure (PyVal.bool false)
  -- deadline = None; if props.get("Deadline") and props["Deadline"].get("date"):
  --   deadline = props["Deadline"]["date"]["start"]
  let dGet ← props.dictGet ("Deadline")
  let deadline ←
    if dGet.truthy then do
      let dv ← props.getStr ("Deadline")
      let dd ← dv.dictGet ("date")
      if dd.truthy then do
        let dv2 ← props.getStr ("Deadline")
        let dd2 ← dv2.getStr ("date")
        dd2.getStr ("start")
      else pure PyVal.null
    else pure PyVal.null
  -- formatted_task = {"id": task["id"], "task": task, "completed": completed,
  --                   "deadline": deadline, "created": task["created_time"]}
  -- NOTE: at this point `task` is the title string rebound at line 74/120.
  let idv ← task1.getStr ("id")
  let created ← task1.getStr ("created_time")
  pure (PyVal.dict
    [("id", idv), ("task", task1), ("completed", completed),
     ("deadline", deadline), ("created", created)], deadline)

/-- The `list_all_tasks` loop over the query results (lines 116-142):
every formatted record is appended. -/
def formatAllLoop : List PyVal → Except String (List PyVal)
  | [] => .ok []
  | p :: rest => do
      let fp ← formatPage p
      let r ← formatAllLoop rest
      pure (fp.1 :: r)

/-- The `show_today_tasks` loop over the query results (lines 70-98): a
record is appended only when `deadline and deadline.startswith(today)`. -/
def formatTodayLoop (today : String) : List PyVal → Except String (List PyVal)
  | [] => .ok []
  | p :: rest => do
      let fp ← formatPage p
      let keep ←
        if fp.2.truthy then do
          let d ← fp.2.asStr
          pure (d.startsWith today)
        else pure false
      let r ← formatTodayLoop today rest
      pure (if keep then fp.1 :: r else r)

/-- Error sentence produced by the `except` blocks of both task-listing
tools (lines 105-107 and 149-151). -/
def errFetchMsg (e : String) : String :=
  "Error fetching tasks: " ++ e ++
    "\nPlease make sure your Notion integration is properly set up and has access to the database."

/-- The `try` body of `list_all_tasks` (lines 112-147), parameterized by
the decoded query response that `fetch_tasks` would have returned. -/
def listAllTasksBody (resp : PyVal) : Except String String :=
  match resp.dictGetD ("results") (.list []) with
  | .error e => .error e
  | .ok results =>
    match results.asList with
    | .error e => .error e
    | .ok items =>
      match formatAllLoop items with
      | .error e => .error e
      | .ok formatted =>
        if formatted.isEmpty then .ok ("No tasks found in the database.")
        else .ok (jsonDumps (.list formatted))

/-- The `try` body of `show_today_tasks` (lines 65-103), parameterized by
the current date string `today` (`datetime.now().date().isoformat()`) and
the decoded query response. -/
def showTodayTasksBody (today : String) (resp : PyVal) : Except String String :=
  match resp.dictGetD ("results") (.list []) with
  | .error e => .error e
  | .ok results =>
    match results.asList with
    | .error e => .error e
    | .ok items =>
      match formatTodayLoop today items with
      | .error e => .error e
      | .ok formatted =>
        if formatted.isEmpty then .ok ("No tasks scheduled for today.")
        else .ok (jsonDumps (.list formatted))

/-- Tool `list_all_tasks` as the hosting runtime sees it: the whole body is
wrapped in try/except, so every exception is converted to the error
sentence and the tool always returns a string (`.ok`). -/
def list_all_tasks (resp : PyVal) : Except String String :=
  .ok (match listAllTasksBody resp with
       | .ok s => s
       | .error e => errFetchMsg e)

/-- Tool `show_today_tasks` as the hosting runtime sees it; same
try/except wrapping as `list_all_tasks`. -/
def show_today_tasks (today : String) (resp : PyVal) : Except String String :=
  .ok (match showTodayTasksBody today resp with
       | .ok s => s
       | .error e => errFetchMsg e)

/-!
Feed aggregation (server.py lines 174-208).  `fetch` stands for the
combined `requests.get` + `feedparser.parse` step for one URL: `.ok` is a
parsed feed, `.error e` any exception raised while fetching or parsing
(`str(e)`).  The per-URL try/except (lines 191-205) turns a failure into an
error marker and moves on to the next URL.
-/

/-- One parsed feed entry, with the fields read at lines 199-201
(`getattr(entry, "published", None)` makes `published` optional). -/
structure FeedEntry where
  title : String
  link : String
  published : Option String
deriving DecidableEq

/-- A parsed feed: its declared title (`feed.feed.get("title", url)` falls
back to the URL when absent) and its entries. -/
structure ParsedFeed where
  feedTitle : Option String
  entries : List FeedEntry
deriving DecidableEq

/-- One element of the aggregated `articles` list: either an article record
or the error marker appended at line 205. -/
inductive FeedItem where
  | article (title link : String) (published : Option String) (source : String) : FeedItem
  | errMarker (msg : String) : FeedItem
deriving DecidableEq

/-- The article record built at lines 198-203 from one feed entry. -/
def entryItem (source : String) (e : FeedEntry) : FeedItem :=
  .article e.title e.link e.published source

/-- The contribution of a single URL to `articles` (the body of the `for
url in feeds` loop, lines 191-205): on success, at most the first 5 entries
(`feed.entries[:5]`); on failure, exactly the error marker. -/
def processFeed (fetch : String → Except String ParsedFeed) (url : String) :
    List FeedItem :=
  match fetch url with
  | .ok feed => (feed.entries.take 5).map (entryItem (feed.feedTitle.getD url))
  | .error e => [.errMarker ("Failed to fetch " ++ url ++ ": " ++ e)]

/-- The whole `for url in feeds` loop (lines 190-205), accumulating
`articles` in order. -/
def aggregateArticles (fetch : String → Except String ParsedFeed) :
    List String → List FeedItem
  | [] => []
  | url :: rest => processFeed fetch url ++ aggregateArticles fetch rest

/-- Parsing of config/feeds.txt (line 184): strip each line, drop blank
lines and comment lines. -/
def parseFeedLines (content : String) : List String :=
  ((content.splitOn ("\n")).map String.trim).filter
    (fun l => !l.isEmpty && !l.startsWith ("#"))

/-- Serialization of one aggregated item for the final `json.dumps`. -/
def feedItemToPy : FeedItem → PyVal
  | .article t l p s => .dict
      [("title", .str t), ("link", .str l),
       ("published", match p with | some x => .str x | Option.none => .null),
       ("source", .str s)]
  | .errMarker m => .dict [("error", .str m)]

/-- Tool `fetch_latest_articles` (lines 174-208), parameterized by the
feeds file content (`none` when the file is absent) and the per-URL fetch
outcome.  The FileNotFoundError raised at line 181 is outside any
try/except, so it propagates to the hosting runtime as `.error`. -/
def fetch_latest_articles (file : Option String)
    (fetch : String → Except String ParsedFeed) : Except String String :=
  match file with
  | Option.none => .error ("FileNotFoundError: feeds.txt not found")
  | Option.some content =>
    let feeds := parseFeedLines content
    if feeds.isEmpty then .ok ("No feeds found.")
    else
      let articles := aggregateArticles fetch feeds
      if articles.isEmpty then .ok ("No articles found.")
      else .ok (jsonDumps (.list (articles.map feedItemToPy)))

/-!
Task creation (server.py lines 210-245).  `post` stands for the
`httpx` POST to `{NOTION_BASE_URL}/pages` followed by `raise_for_status()`
and `.json()`: `.ok` is the decoded created page, `.error` an HTTP or
network exception.  `add_task_to_notion` has no try/except and returns the
decoded JSON object, not a string.
-/

/-- The request payload built at lines 212-222 for a given title and URL
(the database id does not affect any claim, so it is a fixed stand-in). -/
def addTaskPayload (title url : String) : PyVal :=
  .dict
    [("parent", .dict [("database_id", .str "DATABASE_ID")]),
     ("properties", .dict
       [("Task", .dict [("title", .list [.dict [("text", .dict [("content", .str title)])]])]),
        ("URL", .dict [("url", .str url)])])]

/-- Tool `add_task_to_notion` (lines 210-230): posts the payload and
returns the decoded response; any exception from `post` propagates. -/
def add_task_to_notion (post : PyVal → Except String PyVal)
    (title url : String) : Except String PyVal :=
  post (addTaskPayload title url)

/-- A stub Notion backend for the round-trip claim: creating a page from a
request payload stores a page carrying the payload properties plus a
server-assigned id and creation time, exactly the shape `fetch_tasks`
later returns inside `results`. -/
def stubCreatedPage (pid created : String) (payload : PyVal) : PyVal :=
  .dict
    [("id", .str pid), ("created_time", .str created),
     ("properties",
       match payload with
       | .dict kvs => (kvs.lookup ("properties")).getD (.dict [])
       | _ => .dict [])]

/-- The per-article outcome recorded by the loop of
`add_articles_as_reading_tasks` (lines 239-244): `added` on success,
`error: str(e)` when `add_task_to_notion` raised. -/
def articleOutcome (attempt : String → String → Except String PyVal)
    (title url : String) : PyVal :=
  match attempt title url with
  | .ok _ => .dict [("title", .str title), ("status", .str "added")]
  | .error e => .dict [("title", .str title), ("status", .str ("error: " ++ e))]

/-- One input article, as the spec types them: a `\x7btitle, url\x7d` pair. -/
structure ArticleInput where
  title : String
  url : String
deriving DecidableEq

/-- The `for article in articles` loop of lines 238-244, accumulating
`results` in order; the try/except is inside the loop, so no item aborts
the batch. -/
def addArticlesLoop (attempt : String → String → Except String PyVal) :
    List ArticleInput → List PyVal
  | [] => []
  | a :: rest => articleOutcome attempt a.title a.url :: addArticlesLoop attempt rest

/-- Tool `add_articles_as_reading_tasks` (lines 232-245): runs the loop and
returns `json.dumps(results, indent=2)`; always a string. -/
def add_articles_as_reading_tasks (attempt : String → String → Except String PyVal)
    (articles : List ArticleInput) : Except String String :=
  .ok (jsonDumps (.list (addArticlesLoop attempt articles)))

/-!
Concrete inputs used by the code-bug evaluations and the witnesses.
-/

/-- A well-formed Notion page with a title property but with both optional
properties (Checkbox, Deadline) absent. -/
def pageMissingOptionals : PyVal := .dict
  [("id", .str "page-1"), ("created_time", .str "2024-01-01T00:00:00.000Z"),
   ("properties", .dict
     [("Task", .dict [("title", .list [.dict [("text", .dict [("content", .str "Buy milk")])]])])])]

/-- A well-formed Notion page whose Deadline date starts with the date
string 2026-01-15. -/
def pageWithDeadline : PyVal := .dict
  [("id", .str "page-2"), ("created_time", .str "2026-01-15T08:00:00.000Z"),
   ("properties", .dict
     [("Task", .dict [("title", .list [.dict [("text", .dict [("content", .str "Ship it")])]])]),
      ("Deadline", .dict [("date", .dict [("start", .str "2026-01-15")])])])]

/-- A parsed feed with seven entries, more than the per-feed cap. -/
def sampleFeed : ParsedFeed :=
  ⟨some "Sample", [⟨"t1", "l1", Option.none⟩, ⟨"t2", "l2", Option.none⟩,
    ⟨"t3", "l3", Option.none⟩, ⟨"t4", "l4", Option.none⟩,
    ⟨"t5", "l5", Option.none⟩, ⟨"t6", "l6", Option.none⟩, ⟨"t7", "l7", Option.none⟩]⟩

/-- A fetch environment in which one URL fails and every other URL yields a
one-entry feed. -/
def wFetch : String → Except String ParsedFeed := fun u =>
  if u = "http://bad" then .error "boom"
  else .ok ⟨some "Good Feed", [⟨"T1", "L1", some "2026-01-01"⟩]⟩

/-!
Shared helper lemmas.
-/

/-- The bulk-add loop is the per-article outcome map. -/
theorem addArticlesLoop_eq_map (attempt : String → String → Except String PyVal)
    (articles : List ArticleInput) :
    addArticlesLoop attempt articles =
      articles.map (fun a => articleOutcome attempt a.title a.url) := by
  induction articles with
  | nil => rfl
  | cons a rest ih => simp [addArticlesLoop, ih]

/-- A single URL contributes at most 5 items to the aggregated list. -/
theorem processFeed_length_le (fetch : String → Except String ParsedFeed) (url : String) :
    (processFeed fetch url).length ≤ 5 := by
  unfold processFeed
  cases fetch url with
  | ok feed => simp [List.length_take]
  | error e => simp

/-- The aggregated list splits around the contribution of any listed URL. -/
theorem mem_aggregate_decomp (fetch : String → Except String ParsedFeed) (url : String) :
    ∀ feeds : List String, url ∈ feeds →
      ∃ pre post, aggregateArticles fetch feeds = pre ++ processFeed fetch url ++ post := by
  intro feeds
  induction feeds with
  | nil => intro h; cases h
  | cons a rest ih =>
      intro h
      rcases List.mem_cons.mp h with h1 | hr
      · subst h1
        exact ⟨[], aggregateArticles fetch rest, by simp [aggregateArticles]⟩
      · rcases ih hr with ⟨pre, post, hp⟩
        exact ⟨processFeed fetch a ++ pre, post, by simp [aggregateArticles, hp]⟩

/-- Whatever a listed URL contributes is in the aggregated list. -/
theorem mem_aggregate_of_mem_processFeed (fetch : String → Except String ParsedFeed)
    (url : String) (x : FeedItem) (feeds : List String)
    (h : url ∈ feeds) (hx : x ∈ processFeed fetch url) :
    x ∈ aggregateArticles fetch feeds := by
  rcases mem_aggregate_decomp fetch url feeds h with ⟨pre, post, hp⟩
  rw [hp]
  exact List.mem_append.mpr (Or.inl (List.mem_append.mpr (Or.inr hx)))

/-!
Claims.
-/

/-- Claim C1 (counterexample): the claim says no tool-surface operation ever
propagates an exception, but `fetch_latest_articles` raises
FileNotFoundError to the hosting runtime when the feeds file is absent
(server.py lines 180-181, outside every try block). -/
theorem fetch_latest_articles_uncaught_counterexample :
    fetch_latest_articles Option.none (fun _ => .error "") =
      .error "FileNotFoundError: feeds.txt not found" := rfl

/-- Claim C1 (amended): `show_today_tasks`, `list_all_tasks` and
`add_articles_as_reading_tasks` always return a string and never propagate
an exception; `fetch_latest_articles` propagates FileNotFoundError when the
feeds file is absent; and `add_task_to_notion` propagates any HTTP error
(and returns the decoded JSON page object rather than a string). -/
theorem tool_exception_policy_amended :
    (∀ resp, ∃ s, list_all_tasks resp = .ok s) ∧
    (∀ today resp, ∃ s, show_today_tasks today resp = .ok s) ∧
    (∀ attempt articles, ∃ s, add_articles_as_reading_tasks attempt articles = .ok s) ∧
    (∀ fetch, fetch_latest_articles Option.none fetch =
       .error "FileNotFoundError: feeds.txt not found") ∧
    (∀ post title url e, post (addTaskPayload title url) = .error e →
       add_task_to_notion post title url = .error e) :=
  ⟨fun _ => ⟨_, rfl⟩, fun _ _ => ⟨_, rfl⟩, fun _ _ => ⟨_, rfl⟩, fun _ => rfl,
   fun _ _ _ _ h => h⟩

/-- Claim C1 (witness): a failing POST propagates out of
`add_task_to_notion` unchanged. -/
theorem tool_exception_policy_amended_witness :
    add_task_to_notion (fun _ => .error "HTTP 500") "Read X" "https://example.com/x" =
      .error "HTTP 500" :=
  tool_exception_policy_amended.2.2.2.2 (fun _ => .error "HTTP 500") "Read X"
    "https://example.com/x" "HTTP 500" rfl

/-- Claim C2 (code bug): on a page whose Checkbox and Deadline properties
are absent, the formatting step does not produce a record with `completed =
false` and no deadline; it raises TypeError, because the loop variable
`task` was rebound from the page object to the title string (line 74/120)
before `task["id"]` and `task["created_time"]` are read (lines 89/93 and
135/139).  `list_all_tasks` therefore returns the catch-all error sentence
for this response. -/
theorem formatter_raises_on_missing_optionals :
    formatPage pageMissingOptionals = .error "TypeError: string indices must be integers" ∧
    list_all_tasks (.dict [("results", .list [pageMissingOptionals])]) =
      .ok (errFetchMsg "TypeError: string indices must be integers") := ⟨rfl, rfl⟩

/-- Claim C3 (code bug): a task whose Deadline starts with the current date
never appears in the output of `show_today_tasks`; formatting the page
raises TypeError (same rebinding slip as C2) before the deadline filter is
reached, so the tool returns the catch-all error sentence instead of a JSON
array containing the task. -/
theorem today_task_not_surfaced :
    show_today_tasks "2026-01-15" (.dict [("results", .list [pageWithDeadline])]) =
      .ok (errFetchMsg "TypeError: string indices must be integers") := rfl

/-- Claim C4: on a query response whose results list is empty (or absent,
since line 70/116 defaults to the empty list), `list_all_tasks` returns the
fixed sentence `No tasks found in the database.` and `show_today_tasks`
returns the fixed sentence `No tasks scheduled for today.`, not an empty
JSON array. -/
theorem empty_results_sentinels (resp : PyVal) (today : String)
    (h : resp.dictGetD ("results") (.list []) = .ok (.list [])) :
    list_all_tasks resp = .ok "No tasks found in the database." ∧
    show_today_tasks today resp = .ok "No tasks scheduled for today." := by
  constructor <;>
    simp [list_all_tasks, show_today_tasks, listAllTasksBody, showTodayTasksBody, h,
      PyVal.asList, formatAllLoop, formatTodayLoop]

/-- Claim C4 (witness): the sentinels at a concrete empty response. -/
theorem empty_results_sentinels_witness :
    list_all_tasks (.dict [("results", .list [])]) = .ok "No tasks found in the database." ∧
    show_today_tasks "2026-01-15" (.dict [("results", .list [])]) =
      .ok "No tasks scheduled for today." :=
  empty_results_sentinels (.dict [("results", .list [])]) "2026-01-15" rfl

/-- Claim C5: every configured feed URL contributes a contiguous block to
the aggregated article list, and that block holds at most 5 items
(`feed.entries[:5]`, line 197), however many entries the parsed feed has. -/
theorem per_feed_article_cap (fetch : String → Except String ParsedFeed)
    (feeds : List String) (url : String) (h : url ∈ feeds) :
    (processFeed fetch url).length ≤ 5 ∧
    ∃ pre post, aggregateArticles fetch feeds = pre ++ processFeed fetch url ++ post :=
  ⟨processFeed_length_le fetch url, mem_aggregate_decomp fetch url feeds h⟩

/-- Claim C5 (witness): a feed with seven entries contributes at most 5. -/
theorem per_feed_article_cap_witness :
    (processFeed (fun _ => .ok sampleFeed) "http://a").length ≤ 5 :=
  (per_feed_article_cap (fun _ => .ok sampleFeed) ["http://a"] "http://a"
    (List.mem_cons_self _ _)).1

/-- Claim C6: when one configured URL fails to fetch or parse, the
aggregated list contains the error marker `Failed to fetch <url>: <reason>`
for it (line 205), and still contains every capped entry of each URL that
succeeded in the same call: one failure never aborts the batch. -/
theorem feed_failure_isolated (fetch : String → Except String ParsedFeed)
    (feeds : List String) (u v msg : String) (pf : ParsedFeed) (e : FeedEntry)
    (hu : u ∈ feeds) (hfu : fetch u = .error msg)
    (hv : v ∈ feeds) (hfv : fetch v = .ok pf) (he : e ∈ pf.entries.take 5) :
    FeedItem.errMarker ("Failed to fetch " ++ u ++ ": " ++ msg) ∈
      aggregateArticles fetch feeds ∧
    entryItem (pf.feedTitle.getD v) e ∈ aggregateArticles fetch feeds := by
  constructor
  · refine mem_aggregate_of_mem_processFeed fetch u _ feeds hu ?_
    simp [processFeed, hfu]
  · refine mem_aggregate_of_mem_processFeed fetch v _ feeds hv ?_
    rw [processFeed, hfv]
    exact List.mem_map_of_mem _ he

/-- Claim C6 (witness): with one failing and one succeeding URL, the
aggregate holds both the error marker and the good entry. -/
theorem feed_failure_isolated_witness :
    FeedItem.errMarker ("Failed to fetch " ++ "http://bad" ++ ": " ++ "boom") ∈
      aggregateArticles wFetch ["http://bad", "http://good"] ∧
    entryItem "Good Feed" ⟨"T1", "L1", some "2026-01-01"⟩ ∈
      aggregateArticles wFetch ["http://bad", "http://good"] :=
  feed_failure_isolated wFetch ["http://bad", "http://good"] "http://bad" "http://good"
    "boom" ⟨some "Good Feed", [⟨"T1", "L1", some "2026-01-01"⟩]⟩
    ⟨"T1", "L1", some "2026-01-01"⟩ (by simp) rfl (by simp) rfl (by simp)

/-- Claim C7 (code bug): against a stub backend, adding the task `Read X`
and then listing does not surface a record whose task field is `Read X`;
formatting the stored page raises TypeError (same rebinding slip as C2),
so `list_all_tasks` returns the catch-all error sentence, which contains no
task record at all. -/
theorem add_then_list_roundtrip_fails :
    list_all_tasks (.dict [("results", .list
      [stubCreatedPage "pg-1" "2026-01-15T00:00:00.000Z"
        (addTaskPayload "Read X" "https://example.com/x")])]) =
      .ok (errFetchMsg "TypeError: string indices must be integers") := rfl

/-- Claim C8: with the .env file present, whenever NOTION_API_KEY or
NOTION_DATABASE_ID is absent (or empty, which `if not ...` also treats as
missing), the import of server.py does not produce a configuration, and the
raised ValueError names a specific missing key (lines 29-32; when both are
missing the first check fires, naming NOTION_API_KEY). -/
theorem startup_missing_key_named (getenv : String → Option String)
    (h : pyFalsyOpt (getenv "NOTION_API_KEY") = true ∨
         pyFalsyOpt (getenv "NOTION_DATABASE_ID") = true) :
    (serverStartup true getenv).isOk = false ∧
    ((serverStartup true getenv = .error "ValueError: NOTION_API_KEY not found in .env file" ∧
      pyFalsyOpt (getenv "NOTION_API_KEY") = true) ∨
     (serverStartup true getenv = .error "ValueError: NOTION_DATABASE_ID not found in .env file" ∧
      pyFalsyOpt (getenv "NOTION_DATABASE_ID") = true)) := by
  by_cases hA : pyFalsyOpt (getenv "NOTION_API_KEY") = true
  · refine ⟨?_, Or.inl ⟨?_, hA⟩⟩ <;> simp [serverStartup, hA, Except.isOk, Except.toBool]
  · have hD : pyFalsyOpt (getenv "NOTION_DATABASE_ID") = true := h.resolve_left hA
    refine ⟨?_, Or.inr ⟨?_, hD⟩⟩ <;>
      simp [serverStartup, hA, hD, Except.isOk, Except.toBool]

/-- Claim C8 (witness): with every variable unset, startup does not
initialize. -/
theorem startup_missing_key_named_witness :
    (serverStartup true (fun _ => Option.none)).isOk = false :=
  (startup_missing_key_named (fun _ => Option.none) (Or.inl rfl)).1

/-- Claim C9: `add_articles_as_reading_tasks` returns the serialized list
of per-article outcomes in input order (one attempted `add_task_to_notion`
per article), where a succeeding article is recorded with status `added`
and a failing one with status `error: <reason>`; no failure aborts the
batch, since the outcome list always has one record per input article. -/
theorem bulk_add_outcomes (attempt : String → String → Except String PyVal)
    (articles : List ArticleInput) :
    add_articles_as_reading_tasks attempt articles =
      .ok (jsonDumps (.list (articles.map (fun a => articleOutcome attempt a.title a.url)))) ∧
    (addArticlesLoop attempt articles).length = articles.length ∧
    (∀ a ∈ articles, (attempt a.title a.url).isOk = true →
       articleOutcome attempt a.title a.url =
         .dict [("title", .str a.title), ("status", .str "added")]) ∧
    (∀ a ∈ articles, ∀ e, attempt a.title a.url = .error e →
       articleOutcome attempt a.title a.url =
         .dict [("title", .str a.title), ("status", .str ("error: " ++ e))]) := by
  refine ⟨by rw [add_articles_as_reading_tasks, addArticlesLoop_eq_map], ?_, ?_, ?_⟩
  · rw [addArticlesLoop_eq_map]; exact (List.length_map _ _)
  · intro a _ hok
    rw [articleOutcome]
    cases hv : attempt a.title a.url with
    | ok v => rfl
    | error e => rw [hv] at hok; simp [Except.isOk, Except.toBool] at hok
  · intro a _ e he
    rw [articleOutcome, he]

/-- Claim C9 (witness): in a two-article batch where the first add fails,
its outcome is recorded as an error record. -/
theorem bulk_add_outcomes_witness :
    articleOutcome (fun t _ => if t = "A" then .error "boom" else .ok PyVal.null) "A" "u1" =
      .dict [("title", .str "A"), ("status", .str ("error: " ++ "boom"))] :=
  (bulk_add_outcomes (fun t _ => if t = "A" then .error "boom" else .ok PyVal.null)
    [⟨"A", "u1"⟩, ⟨"B", "u2"⟩]).2.2.2 ⟨"A", "u1"⟩ (by simp) "boom" rfl

/-- Claim C10: importing server.py raises FileNotFoundError whenever the
.env file is absent at the fixed path (lines 19-20), for every environment
`getenv` — including environments in which NOTION_API_KEY and
NOTION_DATABASE_ID are both set — so configuration cannot be supplied via
the process environment alone. -/
theorem startup_requires_env_file (getenv : String → Option String) :
    serverStartup false getenv = .error "FileNotFoundError: No .env file found" := rfl
